import Mathlib

/-!
Verification of the interactive-map script (src/script.js).

The script loads a list of location records, creates one map marker per
record, and keeps a sidebar list and the visible marker layer in sync with
a (search query, category) filter.  Strings are modelled as Lean `String`
(lists of characters), JS numbers carrying coordinates as `Rat`, and the
DOM / Leaflet state as explicit Lean structures.
-/

/-! ### Character-level string utilities (models of the JS string methods used) -/

/-- Whitespace predicate backing the model of `String.prototype.trim`. -/
def isWS (c : Char) : Bool :=
  c == ' ' || c == '\t' || c == '\n' || c == '\r' || c == Char.ofNat 11 || c == Char.ofNat 12

/-- Model of JS `trim()`: drop whitespace from both ends. -/
def trimL (l : List Char) : List Char :=
  ((l.dropWhile isWS).reverse.dropWhile isWS).reverse

/-- Model of JS `toLowerCase()` (ASCII case folding). -/
def toLowerL (l : List Char) : List Char :=
  l.map Char.toLower

/-- `leadsWith n h` holds when `n` is an initial run of `h`. -/
def leadsWith : List Char → List Char → Bool
  | [], _ => true
  | _ :: _, [] => false
  | a :: n, b :: h => a == b && leadsWith n h

/-- Model of JS `String.prototype.includes`: `n` occurs contiguously in `h`. -/
def isSubstr (n : List Char) : List Char → Bool
  | [] => n.isEmpty
  | c :: t => leadsWith n (c :: t) || isSubstr n t


/-! ### HTML escaping (src/script.js line 38) -/

/-- Per-character replacement of `escapeHtml`'s regex. -/
def escChar (c : Char) : List Char :=
  if c = '&' then "&amp;".data
  else if c = '<' then "&lt;".data
  else if c = '>' then "&gt;".data
  else if c = '"' then "&quot;".data
  else if c = Char.ofNat 39 then "&#39;".data
  else [c]

/-- `escapeHtml` from the script: replace each of `&<>"'` by its entity. -/
def escapeHtml (s : String) : String :=
  ⟨(s.data.map escChar).flatten⟩


/-! ### Textual rendering of coordinates

JS interpolates `loc.lat` / `loc.lng` into template literals.  Coordinates
are modelled as `Rat`; their textual form is produced by a small decimal
printer (the exact digits never matter to a claim, only that the output
contains no markup characters). -/

/-- Decimal digit character. -/
def digitChar10 (n : Nat) : Char :=
  if n = 0 then '0' else if n = 1 then '1' else if n = 2 then '2'
  else if n = 3 then '3' else if n = 4 then '4' else if n = 5 then '5'
  else if n = 6 then '6' else if n = 7 then '7' else if n = 8 then '8'
  else if n = 9 then '9' else '*'

/-- Fuel-based digit expansion of a natural number (most significant first). -/
def natStrAux : Nat → Nat → List Char
  | 0, _ => []
  | fuel + 1, n => if n < 10 then [digitChar10 n] else natStrAux fuel (n / 10) ++ [digitChar10 (n % 10)]

def natStr (n : Nat) : List Char := natStrAux (n + 1) n

def intStr (i : Int) : List Char :=
  if i < 0 then '-' :: natStr i.natAbs else natStr i.natAbs

/-- Textual form of a rational coordinate. -/
def ratStr (q : Rat) : String :=
  if q.den = 1 then ⟨intStr q.num⟩ else ⟨intStr q.num ++ '/' :: natStr q.den⟩


/-! ### Data model (src/script.js lines 14-22, 40-55) -/

/-- One point-of-interest entry of `data/locations.json`. -/
structure LocationRecord where
  name : String
  category : String
  description : String
  lat : Rat
  lng : Rat
  image : Option String
deriving DecidableEq

/-- Value interpolated for `loc.image` in a template literal: the string
itself, or `"undefined"` when the field is absent (JS `undefined`). -/
def imgStr (loc : LocationRecord) : String :=
  match loc.image with
  | some s => s
  | none => "undefined"

/-- JS truthiness of `loc.image`: present and a non-empty string. -/
def imgTruthy (loc : LocationRecord) : Bool :=
  match loc.image with
  | some s => !(s == "")
  | none => false

/-! ### Popup HTML (src/script.js lines 25-35) -/

def popupP1 : String := "\n      <div class=\"popup\">\n        <h3>"

def popupP2 : String := "</h3>\n        <small>"

def popupP3 : String := "</small>\n        <p>"

def popupP4 : String := "</p>\n        "

def popupP5 : String := "\n        <p><a href=\"https://www.google.com/maps/search/?api=1&query="

def popupP6 : String := "\" target=\"_blank\" rel=\"noopener\">Open in Google Maps</a></p>\n      </div>\n    "

/-- The conditional `<img>` fragment of the popup: present only when
`loc.image` is truthy; note the `src` value is interpolated unescaped. -/
def popupImgPart (loc : LocationRecord) : String :=
  if imgTruthy loc then
    "<img src=\"" ++ imgStr loc ++ "\" alt=\"" ++ escapeHtml loc.name ++ "\">"
  else ""

/-- `createPopupHTML` from the script (template literal, line for line). -/
def createPopupHTML (loc : LocationRecord) : String :=
  popupP1 ++ escapeHtml loc.name ++ popupP2 ++ escapeHtml loc.category ++ popupP3 ++
    escapeHtml loc.description ++ popupP4 ++ popupImgPart loc ++ popupP5 ++
    ratStr loc.lat ++ "," ++ ratStr loc.lng ++ popupP6

/-! ### Sidebar list item HTML (src/script.js lines 74-92) -/

def itemP1 : String := "\n        <img class=\"location-thumb\" src=\""

def itemP2 : String := "\" alt=\""

def itemP3 : String := "\" />\n        <div>\n          <div class=\"location-title\">"

def itemP4 : String := "</div>\n          <div class=\"location-cat\">"

def itemP5 : String := "</div>\n        </div>\n      "

/-- `innerHTML` assigned to one sidebar `li` by `renderList`; the thumbnail
`src` is interpolated unescaped and unconditionally. -/
def listItemHTML (loc : LocationRecord) : String :=
  itemP1 ++ imgStr loc ++ itemP2 ++ escapeHtml loc.name ++ itemP3 ++
    escapeHtml loc.name ++ itemP4 ++ escapeHtml loc.category ++ itemP5

/-! ### Markers and the marker registry (src/script.js lines 20-21, 40-55) -/

/-- Visual marker: position, hover title, bound popup HTML. -/
structure Marker where
  latlng : Rat × Rat
  title : String
  popup : String
deriving DecidableEq

def mkMarker (loc : LocationRecord) : Marker :=
  ⟨(loc.lat, loc.lng), loc.name, createPopupHTML loc⟩

/-- One element of the script's `markers` array: `{loc, marker}`. -/
structure MarkerEntry where
  loc : LocationRecord
  marker : Marker
deriving DecidableEq

/-- The load loop (lines 41-55): one entry per record, in data order. -/
def loadEntries (locations : List LocationRecord) : List MarkerEntry :=
  locations.map fun loc => ⟨loc, mkMarker loc⟩

/-! ### Filter engine (src/script.js lines 97-104) -/

/-- The predicate applied by `applyFilters` to each `{loc}`:
`q = searchInput.value.trim().toLowerCase()`, `cat = categoryFilter.value`,
`matchesQ = !q || (loc.name+' '+loc.category+' '+loc.description).toLowerCase().includes(q)`,
`matchesCat = !cat || loc.category === cat`. -/
def codeMatches (q cat : String) (loc : LocationRecord) : Bool :=
  let qt := toLowerL (trimL q.data)
  let hay := toLowerL (loc.name ++ " " ++ loc.category ++ " " ++ loc.description).data
  (qt.isEmpty || isSubstr qt hay) && (cat == "" || loc.category == cat)

/-- The pure filter: `markers.filter(({loc}) => matchesQ && matchesCat)`. -/
def filterEngine (q cat : String) (entries : List MarkerEntry) : List MarkerEntry :=
  entries.filter fun e => codeMatches q cat e.loc

/-! ### Map view and bounds (src/script.js lines 8, 58-61, 110-114) -/

/-- A Leaflet `LatLngBounds`: south-west and north-east corners. -/
structure Bounds where
  south : Rat
  west : Rat
  north : Rat
  east : Rat
deriving DecidableEq

/-- `LatLngBounds.extend` with one more point. -/
def extendB (b : Bounds) (p : Rat × Rat) : Bounds :=
  ⟨min b.south p.1, min b.west p.2, max b.north p.1, max b.east p.2⟩

/-- `featureGroup(...).getBounds()`: smallest bounds holding every
coordinate; `none` for an empty collection. -/
def boundsOf : List (Rat × Rat) → Option Bounds
  | [] => none
  | p :: ps => some (ps.foldl extendB ⟨p.1, p.2, p.1, p.2⟩)

/-- `LatLngBounds.pad(ratio)`: grow each side by `ratio` of the extent. -/
def padB (r : Rat) (b : Bounds) : Bounds :=
  ⟨b.south - |b.south - b.north| * r, b.west - |b.west - b.east| * r,
   b.north + |b.south - b.north| * r, b.east + |b.west - b.east| * r⟩

/-- The map's current view: either an explicit `setView(center, zoom)` or
the result of `fitBounds` on a padded bounding box. -/
inductive View where
  | setTo : Rat × Rat → Nat → View
  | fitted : Bounds → View
deriving DecidableEq

/-! ### Displayed UI state and `applyFilters` (src/script.js lines 97-115) -/

/-- `entries` is the `markers` array; `visibleLayers` the contents of the
`markerGroup` layer group; `listHTML` the rendered sidebar items. -/
structure AppState where
  entries : List MarkerEntry
  visibleLayers : List Marker
  listHTML : List String
  view : View
deriving DecidableEq

/-- `applyFilters`: filter, replace the layer group's contents, re-render
the list, and fit the viewport (pad 0.12) only when the subset is
non-empty. -/
def applyFilters (q cat : String) (s : AppState) : AppState :=
  let filtered := filterEngine q cat s.entries
  ⟨s.entries,
   filtered.map fun e => e.marker,
   filtered.map fun e => listItemHTML e.loc,
   if filtered.isEmpty then s.view
   else
     match boundsOf (filtered.map fun e => e.marker.latlng) with
     | some b => View.fitted (padB (0.12 : Rat) b)
     | none => s.view⟩

/-! ### Geolocation control (src/script.js lines 120-140) -/

/-- The temporary `L.circleMarker` added on a successful locate. -/
structure CircleMarker where
  center : Rat × Rat
  radius : Nat
  color : String
  fillColor : String
  fillOpacity : Rat
deriving DecidableEq

def mkUserMarker (lat lng : Rat) : CircleMarker :=
  ⟨(lat, lng), 8, "#2b7cff", "#2b7cff", (0.8 : Rat)⟩

def idleLabel : String := "📍 My location"

/-- Locate-button, temporary marker, map view, pending removal timer and
alert log. -/
structure GeoState where
  btnDisabled : Bool
  btnLabel : String
  userMarker : Option CircleMarker
  view : View
  removalDeadline : Option Nat
  alerts : List String
deriving DecidableEq

/-- State at page load: button enabled, initial `setView` (line 8). -/
def initGeoState : GeoState :=
  ⟨false, idleLabel, none, View.setTo ((40.7831 : Rat), (-73.9712 : Rat)) 12, none, []⟩

/-- Click handler (lines 122-128): alert and stay put if geolocation is
unavailable, otherwise disable the button and show `Locating...`. -/
def clickLocate (geoSupported : Bool) (s : GeoState) : GeoState :=
  if geoSupported then ⟨true, "Locating...", s.userMarker, s.view, s.removalDeadline, s.alerts⟩
  else ⟨s.btnDisabled, s.btnLabel, s.userMarker, s.view, s.removalDeadline,
        s.alerts ++ ["Geolocation not supported by this browser."]⟩

/-- Success callback (lines 129-134) at time `now`: recenter at zoom 14,
add the temporary circle marker, schedule its removal 6000 ms later. -/
def onGeoSuccess (now : Nat) (lat lng : Rat) (s : GeoState) : GeoState :=
  ⟨s.btnDisabled, s.btnLabel, some (mkUserMarker lat lng), View.setTo (lat, lng) 14,
   some (now + 6000), s.alerts⟩

/-- Error callback (lines 135-139): alert with the error message, re-enable
the button, restore the idle label; nothing else changes. -/
def onGeoError (msg : String) (s : GeoState) : GeoState :=
  ⟨false, idleLabel, s.userMarker, s.view, s.removalDeadline,
   s.alerts ++ ["Could not get location: " ++ msg]⟩

/-- The `setTimeout` body (line 134), fired at time `now` if due: remove
the temporary marker and return the button to the enabled idle state. -/
def fireTimers (now : Nat) (s : GeoState) : GeoState :=
  match s.removalDeadline with
  | some d => if d ≤ now then ⟨false, idleLabel, none, s.view, none, s.alerts⟩ else s
  | none => s

/-! ### Fixtures and spec-side predicates used by the claim theorems -/

/-- `noLtI l`: nowhere in `l` is a `<` immediately followed by an `i`.
Used to show a rendered string holds no `<img` tag. -/
def noLtI : List Char → Bool
  | [] => true
  | a :: t => !(a == '<' && t.head? == some 'i') && noLtI t

/-- The matching rule exactly as the claim words it: query empty, or the
lowercased query a substring of the lowercased plain concatenation
`name ++ category ++ description` (no separators, no trimming). -/
def claimMatches (q cat : String) (loc : LocationRecord) : Bool :=
  (q == "" ||
    isSubstr (toLowerL q.data) (toLowerL (loc.name ++ loc.category ++ loc.description).data)) &&
  (cat == "" || loc.category == cat)

/-- The matching rule as amended: the query is trimmed (and lowercased)
first, and the haystack is the lowercased concatenation of the three
fields joined by single spaces. -/
def amendedMatches (q cat : String) (loc : LocationRecord) : Bool :=
  (trimL q.data == [] ||
    isSubstr (toLowerL (trimL q.data))
      (toLowerL (loc.name ++ " " ++ loc.category ++ " " ++ loc.description).data)) &&
  (cat == "" || loc.category == cat)

/-- Record separating the code's space-joined haystack from the claim's
plain concatenation. -/
def rec1 : LocationRecord := ⟨"a", "b", "", 0, 0, none⟩

/-- Record whose image URL carries markup (never escaped by the code). -/
def recInj : LocationRecord := ⟨"x", "c", "d", 0, 0, some "\"><script>alert(1)</script>"⟩

/-- Record whose name carries markup (escaped by the code). -/
def recName : LocationRecord := ⟨"<script>x</script>", "c", "d", 0, 0, none⟩

/-- A loaded entry for `rec1`. -/
def ent0 : MarkerEntry := ⟨rec1, mkMarker rec1⟩

/-- App state with no records. -/
def stEmpty : AppState := ⟨[], [], [], View.setTo ((0 : Rat), (0 : Rat)) 12⟩

/-- App state with the single entry `ent0`. -/
def stOne : AppState := ⟨[ent0], [ent0.marker], [listItemHTML rec1], View.setTo ((0 : Rat), (0 : Rat)) 12⟩

/-! ### General lemmas about the string model -/
theorem leadsWith_self_append (n v : List Char) : leadsWith n (n ++ v) = true := by
  induction n with
  | nil => rfl
  | cons a t ih => simp [leadsWith, ih]

theorem isSubstr_of_leadsWith {n h : List Char} (hp : leadsWith n h = true) :
    isSubstr n h = true := by
  cases h with
  | nil =>
    cases n with
    | nil => rfl
    | cons a t => simp [leadsWith] at hp
  | cons c t => simp [isSubstr, hp]

theorem isSubstr_append_intro (n u v : List Char) : isSubstr n (u ++ (n ++ v)) = true := by
  induction u with
  | nil => exact isSubstr_of_leadsWith (leadsWith_self_append n v)
  | cons c u ih => simp [isSubstr, ih]

theorem leadsWith_ex {n h : List Char} (hp : leadsWith n h = true) : ∃ v, h = n ++ v := by
  induction n generalizing h with
  | nil => exact ⟨h, rfl⟩
  | cons a t ih =>
    cases h with
    | nil => simp [leadsWith] at hp
    | cons b hs =>
      simp only [leadsWith, Bool.and_eq_true, beq_iff_eq] at hp
      obtain ⟨v, hv⟩ := ih hp.2
      exact ⟨v, by simp [hp.1, hv]⟩

theorem isSubstr_ex {n l : List Char} (hs : isSubstr n l = true) : ∃ u v, l = u ++ n ++ v := by
  induction l with
  | nil =>
    cases n with
    | nil => exact ⟨[], [], rfl⟩
    | cons a t => simp [isSubstr, List.isEmpty] at hs
  | cons c t ih =>
    simp only [isSubstr, Bool.or_eq_true] at hs
    rcases hs with hp | hrec
    · obtain ⟨v, hv⟩ := leadsWith_ex hp
      exact ⟨[], v, by simp [hv]⟩
    · obtain ⟨u, v, huv⟩ := ih hrec
      exact ⟨c :: u, v, by simp [huv]⟩

theorem data_append (s t : String) : (s ++ t).data = s.data ++ t.data := rfl

theorem lt_not_mem_escChar (c : Char) : '<' ∉ escChar c := by
  unfold escChar
  split_ifs with h1 h2 h3 h4 h5
  · decide
  · decide
  · decide
  · decide
  · decide
  · simp only [List.mem_singleton]
    exact fun hh => h2 hh.symm

theorem lt_not_mem_escapeHtml (s : String) : '<' ∉ (escapeHtml s).data := by
  intro hmem
  simp only [escapeHtml, List.mem_flatten] at hmem
  obtain ⟨l, hl, hcl⟩ := hmem
  simp only [List.mem_map] at hl
  obtain ⟨c, _, rfl⟩ := hl
  exact lt_not_mem_escChar c hcl

theorem digitChar10_ne_lt (n : Nat) : digitChar10 n ≠ '<' := by
  unfold digitChar10
  split_ifs <;> decide

theorem lt_not_mem_natStrAux (fuel n : Nat) : '<' ∉ natStrAux fuel n := by
  induction fuel generalizing n with
  | zero => simp [natStrAux]
  | succ f ih =>
    unfold natStrAux
    split
    · simp only [List.mem_singleton]
      exact fun hh => digitChar10_ne_lt n hh.symm
    · intro hmem
      rcases List.mem_append.mp hmem with hl | hr
      · exact ih (n / 10) hl
      · simp only [List.mem_singleton] at hr
        exact digitChar10_ne_lt (n % 10) hr.symm

theorem lt_not_mem_natStr (n : Nat) : '<' ∉ natStr n :=
  lt_not_mem_natStrAux (n + 1) n

theorem lt_not_mem_intStr (i : Int) : '<' ∉ intStr i := by
  unfold intStr
  split
  · intro hmem
    rcases List.mem_cons.mp hmem with h | h
    · exact absurd h (by decide)
    · exact lt_not_mem_natStr i.natAbs h
  · exact lt_not_mem_natStr i.natAbs

theorem lt_not_mem_ratStr (q : Rat) : '<' ∉ (ratStr q).data := by
  unfold ratStr
  split
  · exact lt_not_mem_intStr q.num
  · intro hmem
    rcases List.mem_append.mp hmem with hl | hr
    · exact lt_not_mem_intStr q.num hl
    · rcases List.mem_cons.mp hr with h | h
      · exact absurd h (by decide)
      · exact lt_not_mem_natStr q.den h
/-! ### Filter-engine lemmas -/

theorem codeMatches_empty (cat : String) (loc : LocationRecord) (hcat : cat = "") :
    codeMatches "" cat loc = true := by
  subst hcat
  rfl

theorem trimL_nil_of_ws {l : List Char} (h : ∀ c ∈ l, isWS c = true) : trimL l = [] := by
  have h1 : l.dropWhile isWS = [] := by
    induction l with
    | nil => rfl
    | cons c t ih =>
      rw [List.dropWhile_cons, if_pos (h c (List.mem_cons_self c t))]
      exact ih fun x hx => h x (List.mem_cons_of_mem c hx)
  simp [trimL, h1]

/-! ### Claim theorems: filter engine -/

/-- C4: filtering with an empty query and an empty category is the
identity on the entry sequence (full record set, order preserved). -/
theorem claim_C4 (entries : List MarkerEntry) : filterEngine "" "" entries = entries :=
  List.filter_eq_self.mpr fun e _ => codeMatches_empty "" e.loc rfl

/-- C5: with a non-empty category selector, every entry the filter engine
returns has exactly that category (case-sensitive string equality). -/
theorem claim_C5 (q cat : String) (entries : List MarkerEntry) (hcat : cat ≠ "") :
    ∀ e ∈ filterEngine q cat entries, e.loc.category = cat := by
  intro e he
  unfold filterEngine at he
  have hp := (List.mem_filter.mp he).2
  simp only [codeMatches, Bool.and_eq_true, Bool.or_eq_true, beq_iff_eq] at hp
  rcases hp.2 with h | h
  · exact absurd h hcat
  · exact h

set_option maxRecDepth 4000 in
theorem claim_C5_witness : ent0.loc.category = "b" :=
  claim_C5 "" "b" [ent0] (by decide) ent0 (by decide)

/-- C9: a query consisting only of whitespace characters filters exactly
like the empty query (trimming makes the query clause vacuous). -/
theorem claim_C9 (q cat : String) (entries : List MarkerEntry)
    (h : ∀ c ∈ q.data, isWS c = true) :
    filterEngine q cat entries = filterEngine "" cat entries := by
  have hq : trimL q.data = [] := trimL_nil_of_ws h
  unfold filterEngine
  apply List.filter_congr
  intro e _
  simp only [codeMatches]
  rw [hq]
  rfl

theorem claim_C9_witness : filterEngine "  " "" [ent0] = filterEngine "" "" [ent0] :=
  claim_C9 "  " "" [ent0] (by decide)

/-- C1 fails on the code: the code's haystack joins the fields with single
spaces, the claim's haystack is the plain concatenation.  With the record
(name "a", category "b", description "") and query "a b" the code keeps
the record while the claim's rule rejects it. -/
theorem claim_C1_counterexample :
    filterEngine "a b" "" (loadEntries [rec1]) ≠
      (loadEntries [rec1]).filter fun e => claimMatches "a b" "" e.loc := by
  decide

/-- C1 as amended: the filter engine returns exactly the records passing
(trimmed query empty OR lowercased trimmed query a substring of the
lowercased space-joined `name ++ " " ++ category ++ " " ++ description`)
AND (category selector empty OR exact category equality). -/
theorem claim_C1_amended (q cat : String) (entries : List MarkerEntry) :
    filterEngine q cat entries = entries.filter fun e => amendedMatches q cat e.loc := by
  unfold filterEngine
  apply List.filter_congr
  intro e _
  cases htrim : trimL q.data with
  | nil => simp [codeMatches, amendedMatches, htrim, toLowerL]
  | cons c t => simp [codeMatches, amendedMatches, htrim, toLowerL]

/-! ### Claim theorems: rendering/marker synchronisation and viewport -/

/-- C3: after `applyFilters`, the visible layer group and the rendered
sidebar list are images of the same filtered subset in source order, and
their lengths both equal the size of the filter engine's output for the
same (query, category) pair. -/
theorem claim_C3 (q cat : String) (s : AppState) :
    (applyFilters q cat s).visibleLayers = (filterEngine q cat s.entries).map (fun e => e.marker) ∧
    (applyFilters q cat s).listHTML =
      (filterEngine q cat s.entries).map (fun e => listItemHTML e.loc) ∧
    (applyFilters q cat s).listHTML.length = (applyFilters q cat s).visibleLayers.length ∧
    (applyFilters q cat s).visibleLayers.length = (filterEngine q cat s.entries).length := by
  refine ⟨rfl, rfl, ?_, ?_⟩ <;> simp [applyFilters]

/-- C6: the fit-viewport step of `applyFilters` is a no-op on the view when
the filtered subset is empty, and otherwise fits the bounds of the
subset's coordinates padded by the fixed ratio 0.12; the bounds are
missing exactly when the subset is empty. -/
theorem claim_C6 (q cat : String) (s : AppState) :
    (filterEngine q cat s.entries = [] → (applyFilters q cat s).view = s.view) ∧
    (∀ b, boundsOf ((filterEngine q cat s.entries).map fun e => e.marker.latlng) = some b →
      (applyFilters q cat s).view = View.fitted (padB (0.12 : Rat) b)) ∧
    (boundsOf ((filterEngine q cat s.entries).map fun e => e.marker.latlng) = none ↔
      filterEngine q cat s.entries = []) := by
  refine ⟨?_, ?_, ?_⟩
  · intro h
    simp [applyFilters, h]
  · intro b hb
    have hne : filterEngine q cat s.entries ≠ [] := by
      intro h0
      rw [h0] at hb
      simp [boundsOf] at hb
    simp [applyFilters, hb, hne]
  · constructor
    · intro h
      cases hfe : filterEngine q cat s.entries with
      | nil => rfl
      | cons a t =>
        rw [hfe] at h
        simp [boundsOf] at h
    · intro h
      rw [h]
      rfl

theorem claim_C6_witness :
    (applyFilters "z" "" stEmpty).view = stEmpty.view ∧
    (applyFilters "" "" stOne).view = View.fitted (padB (0.12 : Rat) ⟨0, 0, 0, 0⟩) :=
  ⟨(claim_C6 "z" "" stEmpty).1 (by decide),
   (claim_C6 "" "" stOne).2.1 ⟨0, 0, 0, 0⟩ (by decide)⟩

/-! ### Claim theorems: geolocation control -/

/-- C7: a successful geolocation callback recenters the view on the
reported coordinate at zoom 14 and places the temporary circle marker
there; the marker survives every timer check before 6000 ms have elapsed,
and at or after 6000 ms the marker is gone and the locate control is back
to the enabled idle state with its original label. -/
theorem claim_C7 (s : GeoState) (t : Nat) (lat lng : Rat) :
    (onGeoSuccess t lat lng (clickLocate true s)).view = View.setTo (lat, lng) 14 ∧
    (onGeoSuccess t lat lng (clickLocate true s)).userMarker = some (mkUserMarker lat lng) ∧
    (∀ u, u < t + 6000 →
      (fireTimers u (onGeoSuccess t lat lng (clickLocate true s))).userMarker =
        some (mkUserMarker lat lng)) ∧
    (∀ u, t + 6000 ≤ u →
      (fireTimers u (onGeoSuccess t lat lng (clickLocate true s))).userMarker = none ∧
      (fireTimers u (onGeoSuccess t lat lng (clickLocate true s))).btnDisabled = false ∧
      (fireTimers u (onGeoSuccess t lat lng (clickLocate true s))).btnLabel = idleLabel) := by
  refine ⟨rfl, rfl, ?_, ?_⟩
  · intro u hu
    have hlt : ¬ (t + 6000 ≤ u) := by omega
    simp [fireTimers, onGeoSuccess, clickLocate, hlt]
  · intro u hu
    simp [fireTimers, onGeoSuccess, clickLocate, hu]

theorem claim_C7_witness :
    (fireTimers 5999 (onGeoSuccess 0 (40.70 : Rat) (-74.00 : Rat)
        (clickLocate true initGeoState))).userMarker =
      some (mkUserMarker (40.70 : Rat) (-74.00 : Rat)) ∧
    (fireTimers 6000 (onGeoSuccess 0 (40.70 : Rat) (-74.00 : Rat)
        (clickLocate true initGeoState))).userMarker = none ∧
    (fireTimers 6000 (onGeoSuccess 0 (40.70 : Rat) (-74.00 : Rat)
        (clickLocate true initGeoState))).btnDisabled = false ∧
    (fireTimers 6000 (onGeoSuccess 0 (40.70 : Rat) (-74.00 : Rat)
        (clickLocate true initGeoState))).btnLabel = idleLabel :=
  ⟨(claim_C7 initGeoState 0 (40.70 : Rat) (-74.00 : Rat)).2.2.1 5999 (by omega),
   ((claim_C7 initGeoState 0 (40.70 : Rat) (-74.00 : Rat)).2.2.2 6000 (by omega)).1,
   ((claim_C7 initGeoState 0 (40.70 : Rat) (-74.00 : Rat)).2.2.2 6000 (by omega)).2.1,
   ((claim_C7 initGeoState 0 (40.70 : Rat) (-74.00 : Rat)).2.2.2 6000 (by omega)).2.2⟩

/-- C8: a geolocation error callback re-enables the locate control with
its idle label immediately, appends a blocking alert whose text contains
the underlying error message, and never adds a temporary marker (neither
at the callback nor at any later timer check). -/
theorem claim_C8 (s : GeoState) (msg : String) (u : Nat)
    (h1 : s.userMarker = none) (h2 : s.removalDeadline = none) :
    (onGeoError msg (clickLocate true s)).btnDisabled = false ∧
    (onGeoError msg (clickLocate true s)).btnLabel = idleLabel ∧
    (onGeoError msg (clickLocate true s)).alerts =
      s.alerts ++ ["Could not get location: " ++ msg] ∧
    isSubstr msg.data ("Could not get location: " ++ msg).data = true ∧
    (onGeoError msg (clickLocate true s)).userMarker = none ∧
    (fireTimers u (onGeoError msg (clickLocate true s))).userMarker = none := by
  refine ⟨rfl, rfl, rfl, ?_, ?_, ?_⟩
  · have h := isSubstr_append_intro msg.data ("Could not get location: ").data []
    simpa [data_append] using h
  · simp [onGeoError, clickLocate, h1]
  · simp [fireTimers, onGeoError, clickLocate, h1, h2]

theorem claim_C8_witness :
    (onGeoError "denied" (clickLocate true initGeoState)).userMarker = none ∧
    (fireTimers 9999 (onGeoError "denied" (clickLocate true initGeoState))).userMarker = none :=
  ⟨(claim_C8 initGeoState "denied" 9999 rfl rfl).2.2.2.2.1,
   (claim_C8 initGeoState "denied" 9999 rfl rfl).2.2.2.2.2⟩

/-! ### Claim theorem: escaping (code bug) -/

set_option maxRecDepth 8000 in
/-- C2 fails on the code: the image URL is interpolated into the `src`
attribute of both the popup and the sidebar item without passing through
`escapeHtml`, so a record whose image field carries markup renders it
verbatim (first two conjuncts); the name field, by contrast, really is
escaped (last two conjuncts). -/
theorem claim_C2_eval :
    isSubstr "<script>".data (createPopupHTML recInj).data = true ∧
    isSubstr "<script>".data (listItemHTML recInj).data = true ∧
    isSubstr "<script>".data (createPopupHTML recName).data = false ∧
    isSubstr "<script>".data (listItemHTML recName).data = false := by
  decide

/-! ### Occurrence lemmas for the img-tag claim -/

theorem noLtI_cons (a : Char) (t : List Char) :
    noLtI (a :: t) = (!(a == '<' && t.head? == some 'i') && noLtI t) := rfl

theorem isSubstr_append_right (x : List Char) {n y : List Char} (h : isSubstr n y = true) :
    isSubstr n (x ++ y) = true := by
  induction x with
  | nil => simpa using h
  | cons a t ih => simp [isSubstr, ih]

theorem noLtI_append_no_lt {x : List Char} (hx : '<' ∉ x) (y : List Char) :
    noLtI (x ++ y) = noLtI y := by
  induction x with
  | nil => rfl
  | cons a t ih =>
    have ha : (a == '<') = false := beq_eq_false_iff_ne.mpr fun h => hx (by simp [h])
    have ht : '<' ∉ t := fun h => hx (List.mem_cons_of_mem a h)
    rw [List.cons_append, noLtI_cons, ha]
    simp [ih ht]

theorem noLtI_append {x y : List Char} (hx : noLtI x = true) (hlast : x.getLast? ≠ some '<')
    (hy : noLtI y = true) : noLtI (x ++ y) = true := by
  induction x with
  | nil => simpa using hy
  | cons a t ih =>
    cases t with
    | nil =>
      have ha : (a == '<') = false := beq_eq_false_iff_ne.mpr fun h => hlast (by simp [h])
      rw [List.cons_append, List.nil_append, noLtI_cons, ha]
      simp [hy]
    | cons b t' =>
      rw [noLtI_cons] at hx
      rw [List.getLast?_cons_cons] at hlast
      simp only [Bool.and_eq_true] at hx
      have hind := ih hx.2 hlast
      rw [List.cons_append, noLtI_cons, hind]
      simpa using hx.1

theorem noLtI_pattern (u w : List Char) : noLtI (u ++ '<' :: 'i' :: w) = false := by
  induction u with
  | nil => simp [noLtI_cons]
  | cons a t ih =>
    rw [List.cons_append, noLtI_cons, ih]
    simp

theorem not_substr_img {l : List Char} (h : noLtI l = true) :
    isSubstr "<img".data l = false := by
  cases hval : isSubstr "<img".data l
  · rfl
  · obtain ⟨u, v, huv⟩ := isSubstr_ex hval
    rw [List.append_assoc] at huv
    have hl : l = u ++ '<' :: 'i' :: ('m' :: 'g' :: v) := huv
    rw [hl, noLtI_pattern] at h
    exact absurd h (by decide)

/-- With a non-truthy image field the popup HTML nowhere contains `<`
followed by `i`: the fixed template pieces hold no `<img`, and every
interpolated value (escaped text, coordinate text) holds no `<` at all. -/
theorem popup_noLtI {loc : LocationRecord} (himg : imgTruthy loc = false) :
    noLtI (createPopupHTML loc).data = true := by
  have h0 : popupImgPart loc = "" := by simp [popupImgPart, himg]
  have hshape : (createPopupHTML loc).data =
      popupP1.data ++ ((escapeHtml loc.name).data ++ (popupP2.data ++
        ((escapeHtml loc.category).data ++ (popupP3.data ++
          ((escapeHtml loc.description).data ++ (popupP4.data ++ (popupP5.data ++
            ((ratStr loc.lat).data ++ (",".data ++
              ((ratStr loc.lng).data ++ popupP6.data)))))))))) := by
    simp [createPopupHTML, h0, data_append, List.append_assoc]
  rw [hshape]
  apply noLtI_append (by decide) (by decide)
  rw [noLtI_append_no_lt (lt_not_mem_escapeHtml loc.name)]
  apply noLtI_append (by decide) (by decide)
  rw [noLtI_append_no_lt (lt_not_mem_escapeHtml loc.category)]
  apply noLtI_append (by decide) (by decide)
  rw [noLtI_append_no_lt (lt_not_mem_escapeHtml loc.description)]
  apply noLtI_append (by decide) (by decide)
  apply noLtI_append (by decide) (by decide)
  rw [noLtI_append_no_lt (lt_not_mem_ratStr loc.lat)]
  apply noLtI_append (by decide) (by decide)
  rw [noLtI_append_no_lt (lt_not_mem_ratStr loc.lng)]
  decide

theorem isSubstr_cut (a b c tail : List Char) :
    isSubstr (a ++ (b ++ c)) (a ++ (b ++ (c ++ tail))) = true := by
  have base := isSubstr_append_intro (a ++ (b ++ c)) [] tail
  simpa [List.append_assoc] using base

/-- C10: every sidebar list item contains an `<img>` thumbnail whose `src`
is the interpolated image field, even when the field is absent (it then
reads `undefined`); the popup HTML contains an `<img>` tag exactly when
the image field is present and truthy. -/
theorem claim_C10 (loc : LocationRecord) :
    isSubstr ("<img class=\"location-thumb\" src=\"" ++ imgStr loc ++ "\"").data
      (listItemHTML loc).data = true ∧
    (isSubstr "<img".data (createPopupHTML loc).data = true ↔ imgTruthy loc = true) := by
  constructor
  · rw [listItemHTML]
    simp only [data_append, List.append_assoc]
    rw [show itemP1.data = "\n        ".data ++ "<img class=\"location-thumb\" src=\"".data
          from rfl,
        show itemP2.data = "\"".data ++ " alt=\"".data from rfl]
    simp only [List.append_assoc]
    apply isSubstr_append_right
    exact isSubstr_cut _ _ _ _
  · constructor
    · intro h
      cases htru : imgTruthy loc
      · exfalso
        have hf := not_substr_img (popup_noLtI htru)
        rw [h] at hf
        exact absurd hf (by decide)
      · rfl
    · intro htru
      have h0 : popupImgPart loc =
          "<img src=\"" ++ imgStr loc ++ "\" alt=\"" ++ escapeHtml loc.name ++ "\">" := by
        rw [popupImgPart, if_pos htru]
      rw [createPopupHTML, h0]
      simp only [data_append, List.append_assoc]
      apply isSubstr_append_right
      apply isSubstr_append_right
      apply isSubstr_append_right
      apply isSubstr_append_right
      apply isSubstr_append_right
      apply isSubstr_append_right
      apply isSubstr_append_right
      exact isSubstr_append_intro ['<', 'i', 'm', 'g'] [] _
